import Mathlib

/-!
Verification development for the `ChartTable` component
(`src/superset-frontend/src/views/CRUD/welcome/ChartTable.tsx`).

The component's pure logic is shallowly embedded: the initial-filter
resolution, the tab click handlers, the query built by `getData` /
`getFilters`, the fetch-triggering effect guarded by the `loaded` flag, the
edit-modal controller, the export controller, and a small event model for
the fetch/response interleaving.
-/

namespace ChartTable

/-- Modelled from the spec: the enumeration `TableTabTypes` lives in
`src/views/CRUD/types`, which is outside this repository excerpt.  Its
values are forced by the component's own string comparisons
(`chartFilter === 'Favorite'`, `initialFilter === 'Mine'`) and the tab
names shown in `menuTabs`. -/
def TableTabTypes.FAVORITE : String := "Favorite"

/-- TableTabTypes.MINE, see `TableTabTypes.FAVORITE`. -/
def TableTabTypes.MINE : String := "Mine"

/-- TableTabTypes.EXAMPLES, see `TableTabTypes.FAVORITE`. -/
def TableTabTypes.EXAMPLES : String := "Examples"

/-- Modelled from the spec: the fixed storage key `HOMEPAGE_CHART_FILTER`
is declared in `src/views/CRUD/storageKeys`, outside this excerpt; the spec
only requires it to be one fixed key. -/
def HOMEPAGE_CHART_FILTER : String := "homepage_chart_filter"

/-- `PAGE_SIZE = 3` (line 46). -/
def PAGE_SIZE : Nat := 3

/-- An element of the `examples` array (an untyped `object` in the source);
only its key set matters to the component (`'viz_type' in obj`). -/
structure ExObj where
  keys : List String
deriving DecidableEq, Repr

/-- JavaScript `a || b` on a possibly-null string: `null` and the empty
string are falsy. -/
def jsOr (a : Option String) (b : String) : String :=
  match a with
  | none => b
  | some v => if v = "" then b else v

/-- Lines 68-73: `initialFilter` is `filterStore || TableTabTypes.EXAMPLES`,
overridden to `MINE` when no `examples` prop was supplied and the stored
value is exactly `EXAMPLES`.  `filterStore` is the value read from local
storage under `HOMEPAGE_CHART_FILTER` (with default `null`). -/
def initialFilter (filterStore : Option String) (examples : Option (List ExObj)) : String :=
  if examples.isNone && filterStore == some TableTabTypes.EXAMPLES then
    TableTabTypes.MINE
  else
    jsOr filterStore TableTabTypes.EXAMPLES

/-- Line 75: `filteredExamples = filter(examples, obj => 'viz_type' in obj)`.
lodash `filter` of `undefined` is the empty array. -/
def filteredExamples (examples : Option (List ExObj)) : List ExObj :=
  (examples.getD []).filter (fun obj => obj.keys.contains "viz_type")

/-- Lines 83-91: the collection passed to `useListViewResource` as the
initial resource collection:
`initialFilter === 'Mine' ? mine : filteredExamples`. -/
def defaultCollection (init : String) (mine : List ExObj)
    (examples : Option (List ExObj)) : List ExObj :=
  if init = TableTabTypes.MINE then mine else filteredExamples examples

/-- The `value` field of a list filter: the source pushes a string for
`created_by` and the boolean `true` for `chart_is_favorite`. -/
inductive FilterValue where
  | str (s : String)
  | bool (b : Bool)
deriving DecidableEq, Repr

/-- One element of the `filters` array built by `getFilters`. -/
structure ListFilter where
  id : String
  operator : String
  value : FilterValue
deriving DecidableEq, Repr

/-- JavaScript template interpolation of `user?.userId`: the string of the
id, or `"undefined"` when no user was supplied. -/
def userIdString (user : Option Nat) : String :=
  match user with
  | none => "undefined"
  | some uid => toString uid

/-- Lines 125-142: `getFilters(filterName)`. -/
def getFilters (filterName : String) (user : Option Nat) : List ListFilter :=
  if filterName = "Mine" then
    [{ id := "created_by", operator := "rel_o_m", value := .str (userIdString user) }]
  else if filterName = "Favorite" then
    [{ id := "id", operator := "chart_is_favorite", value := .bool true }]
  else
    []

/-- One entry of the `sortBy` array. -/
structure SortColumn where
  id : String
  desc : Bool
deriving DecidableEq, Repr

/-- The argument object `getData` passes to `fetchData`. -/
structure FetchQuery where
  pageIndex : Nat
  pageSize : Nat
  sortBy : List SortColumn
  filters : List ListFilter
deriving DecidableEq, Repr

/-- Lines 174-185: `getData(filter)` calls `fetchData` with page 0, the
fixed page size, descending sort on `changed_on_delta_humanized`, and the
filters derived from the tab name. -/
def getData (filterName : String) (user : Option Nat) : FetchQuery :=
  { pageIndex := 0
    pageSize := PAGE_SIZE
    sortBy := [{ id := "changed_on_delta_humanized", desc := true }]
    filters := getFilters filterName user }

/-- The state the fetch effect (lines 110-115) reads and writes: the
`loaded` flag and the ordered list of fetches issued so far. -/
structure EffectState where
  loaded : Bool
  fetches : List FetchQuery
deriving DecidableEq, Repr

/-- Lines 110-115: the effect body that runs on mount and whenever
`chartFilter` changes: `if (loaded || chartFilter === 'Favorite')
getData(chartFilter); setLoaded(true)`. -/
def runEffect (chartFilter : String) (user : Option Nat) (s : EffectState) : EffectState :=
  { loaded := true
    fetches :=
      if s.loaded || chartFilter == "Favorite" then
        s.fetches ++ [getData chartFilter user]
      else
        s.fetches }

/-- The effect state before the first effect run: `loaded` starts `false`
(line 108) and no fetch has been issued. -/
def mountState : EffectState := { loaded := false, fetches := [] }

/-- The component state a tab click handler touches: the `chartFilter`
local state (line 106) and the external key-value storage.  Storage is an
association list; `setInLocalStorage` prepends and `getFromLocalStorage`
takes the first binding for the key. -/
structure UIState where
  chartFilter : String
  storage : List (String × String)
deriving DecidableEq, Repr

/-- `setInLocalStorage(key, value)` from `src/utils/localStorageHelpers`. -/
def setInLocalStorage (key value : String) (st : List (String × String)) :
    List (String × String) :=
  (key, value) :: st

/-- `getFromLocalStorage(key, null)`: the current binding for `key`, if any. -/
def getFromLocalStorage (key : String) (st : List (String × String)) : Option String :=
  st.lookup key

/-- One entry of `menuTabs` (lines 144-172): a tab name and its click
handler as a state transformer. -/
structure MenuTab where
  name : String
  onClick : UIState → UIState

/-- Lines 144-152: the Favorite tab and its click handler, which sets the
local `chartFilter` state and writes the tab name to storage under
`HOMEPAGE_CHART_FILTER`. -/
def favoriteTab : MenuTab :=
  { name := "Favorite"
    onClick := fun s =>
      { chartFilter := TableTabTypes.FAVORITE
        storage := setInLocalStorage HOMEPAGE_CHART_FILTER TableTabTypes.FAVORITE s.storage } }

/-- Lines 153-160: the Mine tab and its click handler. -/
def mineTab : MenuTab :=
  { name := "Mine"
    onClick := fun s =>
      { chartFilter := TableTabTypes.MINE
        storage := setInLocalStorage HOMEPAGE_CHART_FILTER TableTabTypes.MINE s.storage } }

/-- Lines 163-172: the Examples tab and its click handler. -/
def examplesTab : MenuTab :=
  { name := "Examples"
    onClick := fun s =>
      { chartFilter := TableTabTypes.EXAMPLES
        storage := setInLocalStorage HOMEPAGE_CHART_FILTER TableTabTypes.EXAMPLES s.storage } }

/-- Lines 144-172: the submenu tabs.  Favorite and Mine are always present;
Examples is appended only when the `examples` prop was supplied. -/
def menuTabs (examples : Option (List ExObj)) : List MenuTab :=
  [favoriteTab, mineTab] ++ (if examples.isSome then [examplesTab] else [])

/-- A chart resource as far as the component manipulates it: an id and
opaque display data. -/
structure Chart where
  id : Nat
  data : String
deriving DecidableEq, Repr

/-- Modelled from the spec: the hook `useChartEditModal` lives in
`src/views/CRUD/hooks`, outside this excerpt.  Per the spec, its states are
closed / editing(chart); this structure pairs `sliceCurrentlyEditing` with
the chart collection it updates through `setCharts`. -/
structure EditModalState where
  sliceCurrentlyEditing : Option Chart
  charts : List Chart
deriving DecidableEq, Repr

/-- Modelled from the spec: `openChartEditModal(chart)` transitions the
modal to editing the given chart. -/
def openChartEditModal (c : Chart) (s : EditModalState) : EditModalState :=
  { s with sliceCurrentlyEditing := some c }

/-- Modelled from the spec: `handleChartUpdated(updatedChart)` replaces the
entry with matching id in the chart collection and transitions the modal to
closed. -/
def handleChartUpdated (updated : Chart) (s : EditModalState) : EditModalState :=
  { sliceCurrentlyEditing := none
    charts := s.charts.map (fun c => if c.id = updated.id then updated else c) }

/-- Modelled from the spec: `closeChartEditModal()` transitions to closed
without mutating the collection. -/
def closeChartEditModal (s : EditModalState) : EditModalState :=
  { s with sliceCurrentlyEditing := none }

/-- The export controller state: the `preparingExport` flag (line 107) and
the ids currently sent to the export collaborator, if any. -/
structure ExportState where
  preparingExport : Bool
  pendingExport : Option (List Nat)
deriving DecidableEq, Repr

/-- Lines 117-123: `handleBulkChartExport(chartsToExport)` extracts the
ids, hands them to `handleResourceExport` together with a completion
callback, and sets `preparingExport` to `true`. -/
def handleBulkChartExport (chartsToExport : List Chart) (_s : ExportState) : ExportState :=
  { preparingExport := true
    pendingExport := some (chartsToExport.map (fun c => c.id)) }

/-- Lines 119-121: the completion callback passed to
`handleResourceExport`, which clears `preparingExport`. -/
def exportCallback (_s : ExportState) : ExportState :=
  { preparingExport := false, pendingExport := none }

/-- Events that can reach the export controller between a trigger and its
completion callback: another trigger, the completion callback itself, or an
event of the component that does not touch the export state. -/
inductive ExportEvent where
  | trigger (cs : List Chart)
  | complete
  | unrelated
deriving DecidableEq, Repr

/-- How each event transforms the export state; only the trigger and the
completion callback write `preparingExport`. -/
def exportStep (e : ExportEvent) (s : ExportState) : ExportState :=
  match e with
  | .trigger cs => handleBulkChartExport cs s
  | .complete => exportCallback s
  | .unrelated => s

/-- Run a sequence of export events from a state. -/
def exportRun (es : List ExportEvent) (s : ExportState) : ExportState :=
  es.foldl (fun s e => exportStep e s) s

/-- What the component renders (lines 187-254), abstracted to the claims:
whether the whole view is replaced by the loading indicator (line 187),
whether the card grid respectively the empty state shows (lines 229-252),
and whether the export spinner overlays (line 253). -/
structure RenderOutput where
  onlyLoading : Bool
  showsGrid : Bool
  showsEmptyState : Bool
  showsExportSpinner : Bool
deriving DecidableEq, Repr

/-- The render function: `if (loading) return <Loading/>`; otherwise the
grid when `charts` is non-empty, the empty state when it is empty, and the
export spinner exactly when `preparingExport` holds. -/
def render (loading : Bool) (charts : List Chart) (preparingExport : Bool) : RenderOutput :=
  if loading then
    { onlyLoading := true, showsGrid := false, showsEmptyState := false
      showsExportSpinner := false }
  else
    { onlyLoading := false
      showsGrid := !charts.isEmpty
      showsEmptyState := charts.isEmpty
      showsExportSpinner := preparingExport }

/-- Modelled from the spec: the state of the data loader
(`useListViewResource`, from `src/views/CRUD/hooks`, outside this excerpt)
as the spec describes it: the current filter tab, the tags of in-flight
fetches, and the filter tag whose response currently populates the visible
collection.  Per the spec, responses are applied in arrival order with no
cancellation and no tag check. -/
structure LoaderState where
  currentFilter : String
  inFlight : List String
  collection : Option String
deriving DecidableEq, Repr

/-- An event of the loader model: a tab switch that issues a fetch tagged
with the new filter, or the arrival of the response to a previously issued
fetch. -/
inductive LoaderEvent where
  | switchTab (t : String)
  | respond (t : String)
deriving DecidableEq, Repr

/-- Modelled from the spec: a tab switch records the new filter and issues
a fetch for it; a response for an in-flight fetch unconditionally
overwrites the visible collection (no request-generation counter, no
cancellation). -/
def loaderStep (e : LoaderEvent) (s : LoaderState) : LoaderState :=
  match e with
  | .switchTab t => { s with currentFilter := t, inFlight := s.inFlight ++ [t] }
  | .respond t =>
      if s.inFlight.contains t then
        { s with inFlight := s.inFlight.erase t, collection := some t }
      else
        s

/-- Run a sequence of loader events from a state. -/
def loaderRun (es : List LoaderEvent) (s : LoaderState) : LoaderState :=
  es.foldl (fun s e => loaderStep e s) s

/-- Running a sequence of events none of which touches the export state
leaves the export state unchanged. -/
lemma exportRun_unrelated (es : List ExportEvent) (s : ExportState)
    (h : ∀ e ∈ es, e = ExportEvent.unrelated) : exportRun es s = s := by
  induction es generalizing s with
  | nil => rfl
  | cons e tl ih =>
    have he : e = ExportEvent.unrelated := h e (by simp)
    subst he
    exact ih s (fun e hmem => h e (by simp [hmem]))

/-- Claim C1: whenever the active filter tab becomes "Favorite" — in any
effect state, in particular the mount state where `loaded` is still
`false` — the effect issues a fetch of the chart collection. -/
theorem favorite_tab_always_fetches (user : Option Nat) (s : EffectState) :
    (runEffect "Favorite" user s).fetches = s.fetches ++ [getData "Favorite" user] := by
  simp [runEffect]

/-- Claim C2: on mount with a stored tab name under the fixed key, the
initial tab is that stored value, except that a stored "Examples" with no
supplied examples collection resolves to "Mine". -/
theorem initial_tab_from_storage (t : String) (ex : Option (List ExObj))
    (h : t = "Favorite" ∨ t = "Mine" ∨ t = "Examples") :
    initialFilter (some t) ex =
      if t = "Examples" ∧ ex.isNone then "Mine" else t := by
  rcases h with h | h | h <;> subst h <;> cases ex <;>
    simp [initialFilter, jsOr, TableTabTypes.EXAMPLES, TableTabTypes.MINE]

/-- Witness for claim C2 at stored tab "Examples" with no examples. -/
theorem initial_tab_from_storage_witness :
    (("Examples" : String) = "Favorite" ∨ ("Examples" : String) = "Mine" ∨
      ("Examples" : String) = "Examples") ∧
    initialFilter (some "Examples") none =
      (if ("Examples" : String) = "Examples" ∧ (none : Option (List ExObj)).isNone
        then "Mine" else "Examples") :=
  ⟨by decide, initial_tab_from_storage "Examples" none (by decide)⟩

/-- Claim C3: every tab in the submenu, after its click handler runs,
leaves the local tab state and the value persisted under the fixed
homepage-chart-filter key both equal to its name. -/
theorem tab_click_persists_selection (ex : Option (List ExObj)) (tab : MenuTab)
    (h : tab ∈ menuTabs ex) (s : UIState) :
    (tab.onClick s).chartFilter = tab.name ∧
    getFromLocalStorage HOMEPAGE_CHART_FILTER (tab.onClick s).storage = some tab.name := by
  have hm : tab = favoriteTab ∨ tab = mineTab ∨ tab = examplesTab := by
    rcases ex with _ | l <;> simp [menuTabs] at h <;> tauto
  rcases hm with rfl | rfl | rfl <;>
    simp [favoriteTab, mineTab, examplesTab, getFromLocalStorage, setInLocalStorage,
      HOMEPAGE_CHART_FILTER, TableTabTypes.FAVORITE, TableTabTypes.MINE,
      TableTabTypes.EXAMPLES, List.lookup]

/-- Witness for claim C3 at the Favorite tab. -/
theorem tab_click_persists_selection_witness :
    favoriteTab ∈ menuTabs none ∧
    ((favoriteTab.onClick { chartFilter := "Examples", storage := [] }).chartFilter
        = favoriteTab.name ∧
      getFromLocalStorage HOMEPAGE_CHART_FILTER
          (favoriteTab.onClick { chartFilter := "Examples", storage := [] }).storage
        = some favoriteTab.name) :=
  ⟨by simp [menuTabs],
    tab_click_persists_selection none favoriteTab (by simp [menuTabs])
      { chartFilter := "Examples", storage := [] }⟩

/-- Claim C4: every fetch requests page 0 of size 3 sorted descending on
the last-modified column, and the filters are: one `created_by` equality
filter for Mine, one is-favorite predicate for Favorite, and none for
Examples. -/
theorem fetch_query_shape (t : String) (uid : Nat) :
    (getData t (some uid)).pageIndex = 0 ∧
    (getData t (some uid)).pageSize = 3 ∧
    (getData t (some uid)).sortBy = [{ id := "changed_on_delta_humanized", desc := true }] ∧
    (getData "Mine" (some uid)).filters =
      [{ id := "created_by", operator := "rel_o_m", value := .str (toString uid) }] ∧
    (getData "Favorite" (some uid)).filters =
      [{ id := "id", operator := "chart_is_favorite", value := .bool true }] ∧
    (getData "Examples" (some uid)).filters = [] := by
  refine ⟨rfl, rfl, rfl, ?_, ?_, ?_⟩ <;> simp [getData, getFilters, userIdString]

/-- Claim C5: mounting with a non-Favorite initial tab issues no fetch
(the supplied default collection is used), and once mounted — `loaded` set —
the next tab change always issues its fetch. -/
theorem no_fetch_on_nonfavorite_mount (t next : String) (user : Option Nat)
    (h : t ≠ "Favorite") :
    (runEffect t user mountState).fetches = [] ∧
    (runEffect t user mountState).loaded = true ∧
    (runEffect next user (runEffect t user mountState)).fetches = [getData next user] := by
  have hb : (t == "Favorite") = false := by simpa using h
  simp [runEffect, mountState, hb]

/-- Witness for claim C5 at initial tab "Mine", then switching to "Mine". -/
theorem no_fetch_on_nonfavorite_mount_witness :
    ("Mine" : String) ≠ "Favorite" ∧
    ((runEffect "Mine" none mountState).fetches = [] ∧
      (runEffect "Mine" none mountState).loaded = true ∧
      (runEffect "Mine" none (runEffect "Mine" none mountState)).fetches
        = [getData "Mine" none]) :=
  ⟨by decide, no_fetch_on_nonfavorite_mount "Mine" "Mine" none (by decide)⟩

/-- Claim C6: saving from the edit modal rewrites exactly the entries
whose id matches the edited chart, position by position, leaves all others
unchanged, and closes the modal; closing without saving leaves the
collection unmutated. -/
theorem chart_edit_modal_frame (s : EditModalState) (u : Chart) :
    (handleChartUpdated u s).sliceCurrentlyEditing = none ∧
    (∀ i : Nat, (handleChartUpdated u s).charts[i]? =
      (s.charts[i]?).map (fun c => if c.id = u.id then u else c)) ∧
    (closeChartEditModal s).charts = s.charts ∧
    (closeChartEditModal s).sliceCurrentlyEditing = none := by
  refine ⟨rfl, ?_, rfl, rfl⟩
  intro i
  simp [handleChartUpdated]

/-- Claim C7: after a bulk-export trigger the `preparingExport` flag is
`true`, and stays `true` across any events that do not touch the export
state, until the completion callback fires and clears it; while it is true
the non-empty card grid is still rendered, with the spinner as an overlay
rather than a replacement. -/
theorem export_flag_lifecycle (cs : List Chart) (s0 : ExportState)
    (es : List ExportEvent) (hes : ∀ e ∈ es, e = ExportEvent.unrelated)
    (charts : List Chart) (hc : charts ≠ []) :
    (exportRun es (handleBulkChartExport cs s0)).preparingExport = true ∧
    (exportRun es (handleBulkChartExport cs s0)).pendingExport
      = some (cs.map (fun c => c.id)) ∧
    (exportStep .complete (exportRun es (handleBulkChartExport cs s0))).preparingExport
      = false ∧
    (render false charts true).onlyLoading = false ∧
    (render false charts true).showsGrid = true ∧
    (render false charts true).showsExportSpinner = true := by
  have hrun := exportRun_unrelated es (handleBulkChartExport cs s0) hes
  rw [hrun]
  have hemp : charts.isEmpty = false := by simpa using hc
  simp [handleBulkChartExport, exportStep, exportCallback, render, hemp]

/-- Witness for claim C7: export of three charts, one unrelated event in
between, a one-card grid. -/
theorem export_flag_lifecycle_witness :
    (∀ e ∈ [ExportEvent.unrelated], e = ExportEvent.unrelated) ∧
    (([] : List Chart) ≠ [{ id := 7, data := "c" }]) ∧
    ((exportRun [ExportEvent.unrelated]
        (handleBulkChartExport
          [{ id := 1, data := "a" }, { id := 2, data := "b" }, { id := 3, data := "c" }]
          { preparingExport := false, pendingExport := none })).preparingExport = true ∧
      (exportRun [ExportEvent.unrelated]
        (handleBulkChartExport
          [{ id := 1, data := "a" }, { id := 2, data := "b" }, { id := 3, data := "c" }]
          { preparingExport := false, pendingExport := none })).pendingExport
        = some (([{ id := 1, data := "a" }, { id := 2, data := "b" },
            { id := 3, data := "c" }] : List Chart).map (fun c => c.id)) ∧
      (exportStep .complete (exportRun [ExportEvent.unrelated]
        (handleBulkChartExport
          [{ id := 1, data := "a" }, { id := 2, data := "b" }, { id := 3, data := "c" }]
          { preparingExport := false, pendingExport := none }))).preparingExport = false ∧
      (render false [{ id := 7, data := "c" }] true).onlyLoading = false ∧
      (render false [{ id := 7, data := "c" }] true).showsGrid = true ∧
      (render false [{ id := 7, data := "c" }] true).showsExportSpinner = true) :=
  ⟨by decide, by decide,
    export_flag_lifecycle
      [{ id := 1, data := "a" }, { id := 2, data := "b" }, { id := 3, data := "c" }]
      { preparingExport := false, pendingExport := none }
      [ExportEvent.unrelated] (by decide)
      [{ id := 7, data := "c" }] (by decide)⟩

/-- Claim C8 fails on the code: after switching Mine → Favorite, the late
arrival of the superseded Mine fetch overwrites the collection produced by
the later Favorite fetch, so the visible collection no longer matches the
current filter. -/
theorem stale_response_overwrites_newer :
    (loaderRun
      [LoaderEvent.switchTab "Mine", LoaderEvent.switchTab "Favorite",
        LoaderEvent.respond "Favorite", LoaderEvent.respond "Mine"]
      { currentFilter := "Examples", inFlight := [], collection := some "Examples" })
      = { currentFilter := "Favorite", inFlight := [], collection := some "Mine" } := by
  decide

/-- Claim C9: when storage holds no value under the filter key, the initial
tab is "Examples" even with no examples supplied, and in that case the
Examples tab is absent from the submenu. -/
theorem null_storage_defaults_to_examples :
    (∀ ex : Option (List ExObj), initialFilter none ex = "Examples") ∧
    (menuTabs none).map (fun tab => tab.name) = ["Favorite", "Mine"] := by
  constructor
  · intro ex
    cases ex <;> simp [initialFilter, jsOr, TableTabTypes.EXAMPLES]
  · rfl

/-- Claim C10: the collection seeded into the data loader is `mine`
exactly for initial tab "Mine"; any other initial tab seeds the supplied
examples restricted to objects carrying a viz_type key. -/
theorem default_collection_by_initial_tab (init : String) (mine : List ExObj)
    (ex : Option (List ExObj)) (h : init ≠ "Mine") :
    defaultCollection "Mine" mine ex = mine ∧
    defaultCollection init mine ex = filteredExamples ex ∧
    ∀ o : ExObj, o ∈ filteredExamples ex ↔ o ∈ ex.getD [] ∧ "viz_type" ∈ o.keys := by
  refine ⟨by simp [defaultCollection, TableTabTypes.MINE], ?_, ?_⟩
  · simp [defaultCollection, TableTabTypes.MINE, h]
  · intro o
    simp [filteredExamples, List.mem_filter]

/-- Witness for claim C10 at initial tab "Favorite" with one filtered and
one unfiltered example object. -/
theorem default_collection_by_initial_tab_witness :
    ("Favorite" : String) ≠ "Mine" ∧
    (defaultCollection "Mine" [{ keys := ["viz_type"] }]
        (some [{ keys := ["viz_type"] }, { keys := ["name"] }]) = [{ keys := ["viz_type"] }] ∧
      defaultCollection "Favorite" [{ keys := ["viz_type"] }]
        (some [{ keys := ["viz_type"] }, { keys := ["name"] }])
        = filteredExamples (some [{ keys := ["viz_type"] }, { keys := ["name"] }]) ∧
      ∀ o : ExObj,
        o ∈ filteredExamples (some [{ keys := ["viz_type"] }, { keys := ["name"] }]) ↔
          o ∈ (some [{ keys := ["viz_type"] }, { keys := ["name"] }] :
              Option (List ExObj)).getD [] ∧ "viz_type" ∈ o.keys) :=
  ⟨by decide,
    default_collection_by_initial_tab "Favorite" [{ keys := ["viz_type"] }]
      (some [{ keys := ["viz_type"] }, { keys := ["name"] }]) (by decide)⟩

end ChartTable
